import Mathlib

/-!
Shallow embedding of the mcp-tunnel package (TunnelMcpServerProxy,
CompositeMcpServerProxy, wire-protocol constants, and the reverse tunnel
transport close handling) together with proofs of the specification claims.
-/

namespace McpTunnel

/-- A JSON-like runtime value, used for params, arguments, results and ids.
JS falsiness is modelled by Value.truthy; numbers are modelled as integers
(the NaN corner of JS numbers is out of scope of the claims). -/
inductive Value where
  | vNull
  | vBool (b : Bool)
  | vNum (n : Int)
  | vStr (s : String)
  | vObj (fields : List (String × Value))

/-- JS truthiness of a value: null, false, 0 and the empty string are falsy;
objects are truthy. -/
def Value.truthy : Value → Bool
  | .vNull => false
  | .vBool b => b
  | .vNum n => decide (n ≠ 0)
  | .vStr s => decide (s ≠ "")
  | .vObj _ => true

/-- JS truthiness of a possibly-absent value (absent = undefined = falsy). -/
def jsTruthy : Option Value → Bool
  | none => false
  | some v => v.truthy

/-- JS truthiness of a possibly-absent string field. -/
def jsTruthyStr : Option String → Bool
  | none => false
  | some s => decide (s ≠ "")

/-- A thrown JS failure: either an Error instance carrying a message, or a
non-Error value. Mirrors the check at TunnelMcpServerProxy.ts line 248. -/
inductive Thrown where
  | errObj (message : String)
  | nonError (value : Value)

/-- The message extracted from a thrown failure by the catch handler:
err.message when err is an Error instance, the fixed Internal error text
otherwise (TunnelMcpServerProxy.ts line 248). -/
def Thrown.toMessage : Thrown → String
  | .errObj m => m
  | .nonError _ => "Internal error"

/-- Local invocation callback of a tool or prompt: receives the arguments
object and either returns a result or throws. -/
def InvokeCallback : Type := Value → Except Thrown Value

/-- Local read callback of a resource: receives the uri string. -/
def ReadCallback : Type := String → Except Thrown Value

-- Wire-protocol constants (src/packages/mcp-tunnel/src/constants.ts).

/-- JSON-RPC version (constants.ts line 4). -/
def JSON_RPC_VERSION : String := "2.0"

/-- WebSocket method: handshake (constants.ts line 9). -/
def WS_METHOD_HANDSHAKE : String := "handshake"

/-- WebSocket method: register MCP tool (constants.ts line 14). -/
def WS_METHOD_REGISTER_MCP_TOOL : String := "register_mcp_tool"

/-- WebSocket method: register MCP prompt (constants.ts line 19). -/
def WS_METHOD_REGISTER_MCP_PROMPT : String := "register_mcp_prompt"

/-- WebSocket method: register MCP resource (constants.ts line 24). -/
def WS_METHOD_REGISTER_MCP_RESOURCE : String := "register_mcp_resource"

/-- WebSocket method: call MCP tool (constants.ts line 29). -/
def WS_METHOD_MCP_TOOLS_CALL : String := "tools/call"

/-- WebSocket method: get MCP prompt (constants.ts line 34). -/
def WS_METHOD_MCP_PROMPTS_GET : String := "prompts/get"

/-- WebSocket method: read MCP resource (constants.ts line 39). -/
def WS_METHOD_MCP_RESOURCES_READ : String := "resources/read"

/-- Close codes that must not trigger automatic reconnection
(constants.ts lines 95 to 100). -/
def NON_RECONNECTABLE_CLOSE_CODES : List Nat := [1008, 4002, 4003, 4004]

/-- Error message for each tunnel close code (constants.ts lines 82 to 89);
codes outside the table have no entry. -/
def WSTunnelCloseMessage (code : Nat) : Option String :=
  if code = 1008 then some "Connection closed due to policy violation"
  else if code = 4000 then some "Unknown error"
  else if code = 4001 then some "Server is shutting down"
  else if code = 4002 then some "Client is banned or blocked from connecting"
  else if code = 4003 then some "Multiple tunnel clients are not supported yet"
  else if code = 4004 then some "Client is possibly stale and needs to reconnect manually"
  else none

-- Capability records (shapes from types.ts usage inside TunnelMcpServerProxy.ts).

/-- The external zod-to-json-schema converter; its output is carried opaquely,
so the conversion is modelled as transporting the schema value. -/
def zodToJsonSchema (schema : Value) : Value := schema

/-- Config accepted by registerTool (TunnelMcpServerProxy.ts lines 72 to 82). -/
structure ToolConfig where
  title : Option String := none
  description : Option String := none
  inputSchema : Option Value := none
  outputSchema : Option Value := none

/-- Serialized tool sent on the wire (callback stripped). -/
structure SerializedMcpTool where
  name : String
  title : Option String
  description : Option String
  inputSchema : Option Value
  outputSchema : Option Value

/-- Config accepted by registerPrompt (TunnelMcpServerProxy.ts lines 92 to 99). -/
structure PromptConfig where
  title : Option String := none
  description : Option String := none
  argsSchema : Option Value := none

/-- Serialized prompt sent on the wire (callback stripped). -/
structure SerializedMcpPrompt where
  name : String
  title : Option String
  description : Option String
  argsSchema : Option Value

/-- Second argument of registerResource: a plain uri string or a template
object carrying a uriTemplate (TunnelMcpServerProxy.ts line 115). -/
inductive UriOrTemplate where
  | uriStr (uri : String)
  | template (uriTemplate : String)

/-- The uri extracted from a UriOrTemplate (TunnelMcpServerProxy.ts line 115). -/
def UriOrTemplate.toUri : UriOrTemplate → String
  | .uriStr u => u
  | .template t => t

/-- Config accepted by registerResource. -/
structure ResourceConfig where
  title : Option String := none
  description : Option String := none
  mimeType : Option String := none

/-- Serialized resource sent on the wire (callback stripped). -/
structure SerializedMcpResource where
  name : String
  title : Option String
  description : Option String
  mimeType : Option String
  uri : String

/-- A stored tool registration: the serialized data plus the local callback
(the TS intersection type SerializedMcpTool with callback). -/
structure ToolRecord where
  data : SerializedMcpTool
  callback : InvokeCallback

/-- A stored prompt registration. -/
structure PromptRecord where
  data : SerializedMcpPrompt
  callback : InvokeCallback

/-- A stored resource registration. -/
structure ResourceRecord where
  data : SerializedMcpResource
  callback : ReadCallback

-- JS Map semantics over association lists (insertion ordered, set keeps slot).

/-- Map.get: first binding of the key, if any. -/
def lookupKey (m : List (String × α)) (k : String) : Option α :=
  match m with
  | [] => none
  | (k₁, v₁) :: rest => if k₁ = k then some v₁ else lookupKey rest k

/-- Map.set: overwrite the value in place when the key exists (keeping its
insertion slot, as a JS Map does), otherwise append the new binding. -/
def mapSet (m : List (String × α)) (k : String) (v : α) : List (String × α) :=
  match m with
  | [] => [(k, v)]
  | (k₁, v₁) :: rest => if k₁ = k then (k, v) :: rest else (k₁, v₁) :: mapSet rest k v

/-- The keys of an association list, in insertion order. -/
def keysOf (m : List (String × α)) : List String := m.map Prod.fst

-- Proxy state and outbound messages.

/-- State of a TunnelMcpServerProxy: the three registries plus the connected
flag (TunnelMcpServerProxy.ts lines 28 to 31). -/
structure ProxyState where
  registeredTools : List (String × ToolRecord) := []
  registeredPrompts : List (String × PromptRecord) := []
  registeredResources : List (String × ResourceRecord) := []
  isConnected : Bool := false

/-- The freshly constructed proxy: empty registries, not connected. -/
def initialProxyState : ProxyState := {}

/-- Params of a registration notification: the serialized capability. -/
inductive RegistrationParams where
  | toolData (t : SerializedMcpTool)
  | promptData (p : SerializedMcpPrompt)
  | resourceData (r : SerializedMcpResource)

/-- An outbound notification envelope (registration push). -/
structure NotificationEnvelope where
  jsonrpc : String
  method : String
  params : RegistrationParams

/-- The register_mcp_tool notification for a stored tool, with the callback
stripped (TunnelMcpServerProxy.ts lines 156 to 167). -/
def sendToolRegistration (t : ToolRecord) : NotificationEnvelope :=
  { jsonrpc := JSON_RPC_VERSION, method := WS_METHOD_REGISTER_MCP_TOOL,
    params := .toolData t.data }

/-- The register_mcp_prompt notification for a stored prompt. -/
def sendPromptRegistration (p : PromptRecord) : NotificationEnvelope :=
  { jsonrpc := JSON_RPC_VERSION, method := WS_METHOD_REGISTER_MCP_PROMPT,
    params := .promptData p.data }

/-- The register_mcp_resource notification for a stored resource. -/
def sendResourceRegistration (r : ResourceRecord) : NotificationEnvelope :=
  { jsonrpc := JSON_RPC_VERSION, method := WS_METHOD_REGISTER_MCP_RESOURCE,
    params := .resourceData r.data }

/-- Serialization performed by registerTool (TunnelMcpServerProxy.ts
lines 73 to 82): schemas pass through the converter when present. -/
def serializeTool (name : String) (config : ToolConfig) : SerializedMcpTool :=
  { name, title := config.title, description := config.description,
    inputSchema := config.inputSchema.map zodToJsonSchema,
    outputSchema := config.outputSchema.map zodToJsonSchema }

/-- Serialization performed by registerPrompt (lines 93 to 99). -/
def serializePrompt (name : String) (config : PromptConfig) : SerializedMcpPrompt :=
  { name, title := config.title, description := config.description,
    argsSchema := config.argsSchema.map zodToJsonSchema }

/-- Serialization performed by registerResource (lines 115 to 123). -/
def serializeResource (name : String) (uriOrTemplate : UriOrTemplate)
    (config : ResourceConfig) : SerializedMcpResource :=
  { name, title := config.title, description := config.description,
    mimeType := config.mimeType, uri := uriOrTemplate.toUri }

/-- registerTool (TunnelMcpServerProxy.ts lines 72 to 90): store the record
under its name, and push a registration notification exactly when currently
connected. -/
def registerTool (st : ProxyState) (name : String) (config : ToolConfig)
    (callback : InvokeCallback) : ProxyState × Option NotificationEnvelope :=
  let record : ToolRecord := ⟨serializeTool name config, callback⟩
  ({ st with registeredTools := mapSet st.registeredTools name record },
   if st.isConnected then some (sendToolRegistration record) else none)

/-- registerPrompt (lines 92 to 107). -/
def registerPrompt (st : ProxyState) (name : String) (config : PromptConfig)
    (callback : InvokeCallback) : ProxyState × Option NotificationEnvelope :=
  let record : PromptRecord := ⟨serializePrompt name config, callback⟩
  ({ st with registeredPrompts := mapSet st.registeredPrompts name record },
   if st.isConnected then some (sendPromptRegistration record) else none)

/-- registerResource (lines 109 to 131): keyed by the resource NAME. -/
def registerResource (st : ProxyState) (name : String)
    (uriOrTemplate : UriOrTemplate) (config : ResourceConfig)
    (callback : ReadCallback) : ProxyState × Option NotificationEnvelope :=
  let record : ResourceRecord := ⟨serializeResource name uriOrTemplate config, callback⟩
  ({ st with registeredResources := mapSet st.registeredResources name record },
   if st.isConnected then some (sendResourceRegistration record) else none)

/-- refreshAllRegistrations (lines 133 to 154): replay every stored record,
tools first, then prompts, then resources, each kind in map iteration order
(= insertion order). -/
def refreshAllRegistrations (st : ProxyState) : List NotificationEnvelope :=
  st.registeredTools.map (fun p => sendToolRegistration p.2)
    ++ st.registeredPrompts.map (fun p => sendPromptRegistration p.2)
    ++ st.registeredResources.map (fun p => sendResourceRegistration p.2)

/-- The onConnectionChange hook installed by the constructor (lines 47 to 52):
record the new flag and, when it turned true, replay all registrations. -/
def onConnectionChange (st : ProxyState) (connected : Bool) :
    ProxyState × List NotificationEnvelope :=
  let st' := { st with isConnected := connected }
  if connected then (st', refreshAllRegistrations st') else (st', [])

/-- The onServerAbort hook installed by the constructor (lines 54 to 56):
an empty body that discards the reason and close code, changes nothing and
emits nothing. -/
def onServerAbortHandler (st : ProxyState) (reason : String)
    (closeCode : Option Nat) : ProxyState × List NotificationEnvelope :=
  (st, [])

/-- Inspection accessor getRegisteredTools (lines 196 to 200): the registry
with callbacks stripped. -/
def getRegisteredTools (st : ProxyState) : List (String × SerializedMcpTool) :=
  st.registeredTools.map (fun p => (p.1, p.2.data))

/-- Inspection accessor getRegisteredPrompts (lines 202 to 206). -/
def getRegisteredPrompts (st : ProxyState) : List (String × SerializedMcpPrompt) :=
  st.registeredPrompts.map (fun p => (p.1, p.2.data))

/-- Inspection accessor getRegisteredResources (lines 208 to 212). -/
def getRegisteredResources (st : ProxyState) : List (String × SerializedMcpResource) :=
  st.registeredResources.map (fun p => (p.1, p.2.data))

-- Inbound request routing (TunnelMcpServerProxy.ts lines 218 to 309).

/-- Params of an inbound request as the handlers destructure them; an absent
field models a JS undefined. -/
structure InboundParams where
  name : Option String := none
  arguments : Option Value := none
  uri : Option String := none

/-- An inbound envelope as seen by handleIncomingMessage; absent id or
method models a JS undefined field. -/
structure InboundMessage where
  id : Option Value := none
  method : Option String := none
  params : InboundParams := {}

/-- A JSON-RPC error object. -/
structure RpcError where
  code : Int
  message : String

/-- An outbound response envelope carrying either a result or an error
(TunnelMcpServerProxy.ts lines 252 to 264). -/
structure ResponseEnvelope where
  jsonrpc : String
  id : Value
  result : Option Value := none
  error : Option RpcError := none

/-- handleToolCall (lines 270 to 279): default missing arguments to an empty
object, throw when the name has no registered tool, else run its callback.
A missing name field looks up a JS undefined key, which misses, and the
thrown message interpolates it as the text undefined. -/
def handleToolCall (st : ProxyState) (params : InboundParams) : Except Thrown Value :=
  let args := params.arguments.getD (Value.vObj [])
  match params.name with
  | none => .error (.errObj "Tool not found: undefined")
  | some n =>
    match lookupKey st.registeredTools n with
    | none => .error (.errObj ("Tool not found: " ++ n))
    | some t => t.callback args

/-- handlePromptGet (lines 281 to 290): same pattern against prompts. -/
def handlePromptGet (st : ProxyState) (params : InboundParams) : Except Thrown Value :=
  let args := params.arguments.getD (Value.vObj [])
  match params.name with
  | none => .error (.errObj "Prompt not found: undefined")
  | some n =>
    match lookupKey st.registeredPrompts n with
    | none => .error (.errObj ("Prompt not found: " ++ n))
    | some p => p.callback args

/-- The linear scan of handleResourceRead (lines 296 to 302): first stored
resource whose uri field equals the requested uri. -/
def findResourceByUri (rs : List (String × ResourceRecord)) (uri : String) :
    Option ResourceRecord :=
  match rs with
  | [] => none
  | (_, r) :: rest => if r.data.uri = uri then some r else findResourceByUri rest uri

/-- handleResourceRead (lines 292 to 309): scan by uri, throw when absent,
else run the callback on the uri. A missing uri field never matches a stored
string uri. -/
def handleResourceRead (st : ProxyState) (params : InboundParams) : Except Thrown Value :=
  match params.uri with
  | none => .error (.errObj "Resource not found: undefined")
  | some uri =>
    match findResourceByUri st.registeredResources uri with
    | none => .error (.errObj ("Resource not found: " ++ uri))
    | some r => r.callback uri

/-- The switch plus catch of handleIncomingMessage (lines 228 to 250): route
on the method string; a handler throw becomes a -32603 error carrying the
extracted message; an unrecognized method becomes a -32601 error. -/
def dispatchMethod (st : ProxyState) (method : String) (params : InboundParams) :
    Except RpcError Value :=
  if method = WS_METHOD_MCP_TOOLS_CALL then
    (handleToolCall st params).mapError (fun t => ⟨-32603, t.toMessage⟩)
  else if method = WS_METHOD_MCP_PROMPTS_GET then
    (handlePromptGet st params).mapError (fun t => ⟨-32603, t.toMessage⟩)
  else if method = WS_METHOD_MCP_RESOURCES_READ then
    (handleResourceRead st params).mapError (fun t => ⟨-32603, t.toMessage⟩)
  else
    .error ⟨-32601, "Method not found: " ++ method⟩

/-- handleIncomingMessage (lines 218 to 268): envelopes whose id or method is
falsy are ignored without any response; otherwise exactly one response is
built, tagged with the original id, carrying the error when one was produced
and the result otherwise. The registries and the connected flag are never
touched, which the type records by not returning a state. -/
def handleIncomingMessage (st : ProxyState) (msg : InboundMessage) :
    Option ResponseEnvelope :=
  match msg.id, msg.method with
  | some idv, some m =>
    if idv.truthy = false then none
    else if m = "" then none
    else
      match dispatchMethod st m msg.params with
      | .ok v => some { jsonrpc := JSON_RPC_VERSION, id := idv, result := some v }
      | .error e => some { jsonrpc := JSON_RPC_VERSION, id := idv, error := some e }
  | _, _ => none

-- Composite dispatcher (src/packages/mcp-tunnel/src/CompositeMcpServerProxy.ts).

/-- One register call forwarded to the stdio-side MCP server. -/
inductive StdioRegistration where
  | toolReg (name : String) (config : ToolConfig) (callback : InvokeCallback)
  | promptReg (name : String) (config : PromptConfig) (callback : InvokeCallback)
  | resourceReg (name : String) (uriOrTemplate : UriOrTemplate)
      (config : ResourceConfig) (callback : ReadCallback)

/-- Modelled from the spec: the external McpServer that StdioMcpServerProxy
delegates every register call to (the modelcontextprotocol SDK class, not in
this repository); modelled as the ordered log of the calls it received. -/
structure StdioState where
  serverCalls : List StdioRegistration := []

/-- StdioMcpServerProxy.registerTool: forward to the MCP server. -/
def stdioRegisterTool (st : StdioState) (name : String) (config : ToolConfig)
    (callback : InvokeCallback) : StdioState :=
  { serverCalls := st.serverCalls ++ [.toolReg name config callback] }

/-- StdioMcpServerProxy.registerPrompt: forward to the MCP server. -/
def stdioRegisterPrompt (st : StdioState) (name : String) (config : PromptConfig)
    (callback : InvokeCallback) : StdioState :=
  { serverCalls := st.serverCalls ++ [.promptReg name config callback] }

/-- StdioMcpServerProxy.registerResource: forward to the MCP server. -/
def stdioRegisterResource (st : StdioState) (name : String)
    (uriOrTemplate : UriOrTemplate) (config : ResourceConfig)
    (callback : ReadCallback) : StdioState :=
  { serverCalls := st.serverCalls ++ [.resourceReg name uriOrTemplate config callback] }

/-- State of a CompositeMcpServerProxy: exactly its two owned sub-proxies and
nothing else (CompositeMcpServerProxy.ts lines 8 to 10). -/
structure CompositeState where
  stdioProxy : StdioState
  tunnelProxy : ProxyState

/-- CompositeMcpServerProxy.registerTool (lines 35 to 38): the same triple is
forwarded to both sub-proxies within the one call; the tunnel push, when
connected, still happens. -/
def compositeRegisterTool (cs : CompositeState) (name : String) (config : ToolConfig)
    (callback : InvokeCallback) : CompositeState × Option NotificationEnvelope :=
  let tunnel := registerTool cs.tunnelProxy name config callback
  ({ stdioProxy := stdioRegisterTool cs.stdioProxy name config callback,
     tunnelProxy := tunnel.1 }, tunnel.2)

/-- CompositeMcpServerProxy.registerPrompt (lines 40 to 43). -/
def compositeRegisterPrompt (cs : CompositeState) (name : String) (config : PromptConfig)
    (callback : InvokeCallback) : CompositeState × Option NotificationEnvelope :=
  let tunnel := registerPrompt cs.tunnelProxy name config callback
  ({ stdioProxy := stdioRegisterPrompt cs.stdioProxy name config callback,
     tunnelProxy := tunnel.1 }, tunnel.2)

/-- CompositeMcpServerProxy.registerResource (lines 45 to 53). -/
def compositeRegisterResource (cs : CompositeState) (name : String)
    (uriOrTemplate : UriOrTemplate) (config : ResourceConfig)
    (callback : ReadCallback) : CompositeState × Option NotificationEnvelope :=
  let tunnel := registerResource cs.tunnelProxy name uriOrTemplate config callback
  ({ stdioProxy := stdioRegisterResource cs.stdioProxy name uriOrTemplate config callback,
     tunnelProxy := tunnel.1 }, tunnel.2)

/-- Promise.all over two already-determined outcomes (CompositeMcpServerProxy.ts
line 56): succeeds only when both succeed; when a start rejects, the composite
promise rejects with that single reason (the stdio entry sits first in the
array, so with both rejecting it is the one adopted) and the other reason is
dropped, never aggregated. -/
def promiseAll2 (a : Except String α) (b : Except String β) : Except String (α × β) :=
  match a with
  | .error e => .error e
  | .ok va =>
    match b with
    | .error e => .error e
    | .ok vb => .ok (va, vb)

/-- CompositeMcpServerProxy.start (lines 55 to 57) applied to the outcomes of
the two sub-starts. -/
def compositeStart (stdioStart : Except String Unit) (tunnelStart : Except String Unit) :
    Except String (Unit × Unit) :=
  promiseAll2 stdioStart tunnelStart

-- Reverse tunnel transport close handling.

/-- Connection state of the transport (spec section on Connection State). -/
inductive ConnState where
  | disconnected
  | connecting
  | connected
  | reconnecting
  | aborted
deriving DecidableEq

/-- An observable effect of processing a socket close. -/
inductive TransportEvent where
  | serverAbortFired (reason : String) (closeCode : Nat)
  | reconnectScheduled (delayMs : Nat)
deriving DecidableEq

/-- Modelled from the spec: the close handling of ReverseTunnelClientTransport,
whose source file is not under src (only its tests, the constants it uses and
its callers are). Per the spec reconnection algorithm: a close while not
Aborted is classified against NON_RECONNECTABLE_CLOSE_CODES; a fatal code
aborts, fires onServerAbort once with the message mapped to the code, and
never reconnects; any other code schedules exactly one reconnect attempt
after the configured interval. -/
def handleSocketClose (state : ConnState) (reconnectInterval : Nat) (code : Nat) :
    ConnState × List TransportEvent :=
  if state = ConnState.aborted then (state, [])
  else if code ∈ NON_RECONNECTABLE_CLOSE_CODES then
    (ConnState.aborted,
     [.serverAbortFired ((WSTunnelCloseMessage code).getD "Unknown error") code])
  else
    (ConnState.reconnecting, [.reconnectScheduled reconnectInterval])

/-- Modelled from the spec: the event trace of a sequence of socket closes,
starting from a given connection state. -/
def runCloses (state : ConnState) (reconnectInterval : Nat) :
    List Nat → List TransportEvent
  | [] => []
  | c :: cs =>
    let step := handleSocketClose state reconnectInterval c
    step.2 ++ runCloses step.1 reconnectInterval cs

-- Sequences of register calls and their effect on the registries.

/-- One register call against the proxy. -/
inductive RegisterAction where
  | toolAct (name : String) (config : ToolConfig) (callback : InvokeCallback)
  | promptAct (name : String) (config : PromptConfig) (callback : InvokeCallback)
  | resourceAct (name : String) (uriOrTemplate : UriOrTemplate)
      (config : ResourceConfig) (callback : ReadCallback)

/-- Effect of one register call on the proxy state. -/
def applyAction (st : ProxyState) : RegisterAction → ProxyState
  | .toolAct n c cb => (registerTool st n c cb).1
  | .promptAct n c cb => (registerPrompt st n c cb).1
  | .resourceAct n u c cb => (registerResource st n u c cb).1

/-- Effect of a sequence of register calls, first to last. -/
def applyActions (st : ProxyState) (acts : List RegisterAction) : ProxyState :=
  acts.foldl applyAction st

/-- The tool-registry update performed by an action, if any. -/
def toolUpd : RegisterAction → Option (String × ToolRecord)
  | .toolAct n c cb => some (n, ⟨serializeTool n c, cb⟩)
  | _ => none

/-- The prompt-registry update performed by an action, if any. -/
def promptUpd : RegisterAction → Option (String × PromptRecord)
  | .promptAct n c cb => some (n, ⟨serializePrompt n c, cb⟩)
  | _ => none

/-- The resource-registry update performed by an action, if any. -/
def resourceUpd : RegisterAction → Option (String × ResourceRecord)
  | .resourceAct n u c cb => some (n, ⟨serializeResource n u c, cb⟩)
  | _ => none

/-- Replay a list of optional keyed updates over an association list with JS
Map set semantics. -/
def regFold (m : List (String × α)) (upds : List (Option (String × α))) :
    List (String × α) :=
  upds.foldl (fun acc u => match u with | some kv => mapSet acc kv.1 kv.2 | none => acc) m

/-- Left-biased choice on options. -/
def orElseOpt (a b : Option α) : Option α :=
  match a with
  | some v => some v
  | none => b

/-- Fold step picking the value of the last update matching a key. -/
def lastStep (n : String) (acc : Option α) (u : Option (String × α)) : Option α :=
  match u with
  | some kv => if kv.1 = n then some kv.2 else acc
  | none => acc

/-- The value written by the last update for a key, if any: the spec-side
notion of the latest definition registered under an identity. -/
def lastUpd (upds : List (Option (String × α))) (n : String) : Option α :=
  upds.foldl (lastStep n) none

/-- Append a key when it is new, keep the list unchanged otherwise. -/
def insertKey (ks : List String) (k : String) : List String :=
  if k ∈ ks then ks else ks ++ [k]

/-- The key list produced by a sequence of updates: the spec-side notion of
registration order (first registration fixes the slot). -/
def keysFold (ks : List String) (upds : List (Option (String × α))) : List String :=
  upds.foldl (fun acc u => match u with | some kv => insertKey acc kv.1 | none => acc) ks

theorem lookupKey_nil (n : String) : lookupKey ([] : List (String × α)) n = none := rfl

theorem lookupKey_cons (k₁ : String) (v₁ : α) (rest : List (String × α)) (n : String) :
    lookupKey ((k₁, v₁) :: rest) n = if k₁ = n then some v₁ else lookupKey rest n := rfl

theorem mapSet_nil (k : String) (v : α) : mapSet [] k v = [(k, v)] := rfl

theorem mapSet_cons (k₁ : String) (v₁ : α) (rest : List (String × α)) (k : String) (v : α) :
    mapSet ((k₁, v₁) :: rest) k v
      = if k₁ = k then (k, v) :: rest else (k₁, v₁) :: mapSet rest k v := rfl

theorem keysOf_nil : keysOf ([] : List (String × α)) = [] := rfl

theorem keysOf_cons (p : String × α) (m : List (String × α)) :
    keysOf (p :: m) = p.1 :: keysOf m := rfl

theorem lookupKey_mapSet (m : List (String × α)) (k n : String) (v : α) :
    lookupKey (mapSet m k v) n = if k = n then some v else lookupKey m n := by
  induction m with
  | nil =>
    by_cases h : k = n <;> simp [mapSet_nil, lookupKey_cons, lookupKey_nil, h]
  | cons p rest ih =>
    obtain ⟨k₁, v₁⟩ := p
    by_cases h : k₁ = k
    · subst h
      by_cases h₂ : k₁ = n <;>
        simp [mapSet_cons, lookupKey_cons, h₂]
    · have hne : k ≠ k₁ := fun hh => h hh.symm
      by_cases h₂ : k₁ = n
      · subst h₂
        simp [mapSet_cons, h, lookupKey_cons, hne]
      · simp [mapSet_cons, h, lookupKey_cons, h₂, ih]

theorem keysOf_mapSet (m : List (String × α)) (k : String) (v : α) :
    keysOf (mapSet m k v) = insertKey (keysOf m) k := by
  induction m with
  | nil => simp [mapSet_nil, keysOf_cons, keysOf_nil, insertKey]
  | cons p rest ih =>
    obtain ⟨k₁, v₁⟩ := p
    by_cases h : k₁ = k
    · subst h
      simp [mapSet_cons, keysOf_cons, insertKey]
    · have hne : k ≠ k₁ := fun hh => h hh.symm
      by_cases hmem : k ∈ keysOf rest
      · simp [mapSet_cons, h, keysOf_cons, ih, insertKey, hmem, hne]
      · simp [mapSet_cons, h, keysOf_cons, ih, insertKey, hmem, hne]

theorem nodup_insertKey {ks : List String} (h : ks.Nodup) (k : String) :
    (insertKey ks k).Nodup := by
  unfold insertKey
  by_cases hmem : k ∈ ks
  · simp only [if_pos hmem]
    exact h
  · simp only [if_neg hmem]
    simp [List.nodup_append, h, hmem]

theorem mem_insertKey_self (ks : List String) (k : String) : k ∈ insertKey ks k := by
  unfold insertKey
  by_cases hmem : k ∈ ks
  · simp only [if_pos hmem]
    exact hmem
  · simp [if_neg hmem]

theorem mem_of_lookupKey {m : List (String × α)} {n : String} {r : α}
    (h : lookupKey m n = some r) : (n, r) ∈ m := by
  induction m with
  | nil => simp [lookupKey_nil] at h
  | cons p rest ih =>
    obtain ⟨k₁, v₁⟩ := p
    by_cases hk : k₁ = n
    · subst hk
      rw [lookupKey_cons, if_pos rfl] at h
      obtain rfl := Option.some.inj h
      exact List.mem_cons_self _ _
    · rw [lookupKey_cons, if_neg hk] at h
      exact List.mem_cons_of_mem _ (ih h)

theorem lookupKey_eq_none_of_not_mem {m : List (String × α)} {n : String}
    (h : n ∉ keysOf m) : lookupKey m n = none := by
  induction m with
  | nil => simp [lookupKey_nil]
  | cons p rest ih =>
    obtain ⟨k₁, v₁⟩ := p
    rw [keysOf_cons, List.mem_cons] at h
    push_neg at h
    rw [lookupKey_cons, if_neg (fun hh => h.1 hh.symm)]
    exact ih h.2

theorem mem_keysOf_of_lookupKey {m : List (String × α)} {n : String} {r : α}
    (h : lookupKey m n = some r) : n ∈ keysOf m := by
  have hmem := mem_of_lookupKey h
  exact List.mem_map.2 ⟨(n, r), hmem, rfl⟩

theorem orElseOpt_none (b : Option α) : orElseOpt none b = b := rfl

theorem orElseOpt_some (v : α) (b : Option α) : orElseOpt (some v) b = some v := rfl

theorem orElseOpt_assoc (a b c : Option α) :
    orElseOpt (orElseOpt a b) c = orElseOpt a (orElseOpt b c) := by
  cases a <;> rfl

theorem regFold_nil (m : List (String × α)) : regFold m [] = m := rfl

theorem regFold_cons (m : List (String × α)) (u : Option (String × α))
    (upds : List (Option (String × α))) :
    regFold m (u :: upds)
      = regFold (match u with | some kv => mapSet m kv.1 kv.2 | none => m) upds := rfl

theorem lastUpd_nil (n : String) : lastUpd ([] : List (Option (String × α))) n = none := rfl

theorem foldl_lastStep (n : String) (upds : List (Option (String × α))) :
    ∀ acc : Option α, upds.foldl (lastStep n) acc = orElseOpt (lastUpd upds n) acc := by
  induction upds with
  | nil =>
    intro acc
    simp [lastUpd_nil, orElseOpt_none, List.foldl_nil]
  | cons u rest ih =>
    intro acc
    have hl : lastUpd (u :: rest) n = orElseOpt (lastUpd rest n) (lastStep n none u) := by
      show (u :: rest).foldl (lastStep n) none = _
      rw [List.foldl_cons, ih (lastStep n none u)]
    rw [List.foldl_cons, ih (lastStep n acc u), hl, orElseOpt_assoc]
    cases hcase : lastUpd rest n with
    | some v => rfl
    | none =>
      simp only [orElseOpt_none]
      cases u with
      | none => rfl
      | some kv =>
        simp only [lastStep]
        by_cases hk : kv.1 = n <;> simp [hk, orElseOpt_some, orElseOpt_none]

theorem lastUpd_cons (n : String) (u : Option (String × α))
    (upds : List (Option (String × α))) :
    lastUpd (u :: upds) n = orElseOpt (lastUpd upds n) (lastStep n none u) := by
  show (u :: upds).foldl (lastStep n) none = _
  rw [List.foldl_cons, foldl_lastStep n upds (lastStep n none u)]

theorem lookupKey_regFold (upds : List (Option (String × α))) :
    ∀ (m : List (String × α)) (n : String),
      lookupKey (regFold m upds) n = orElseOpt (lastUpd upds n) (lookupKey m n) := by
  induction upds with
  | nil =>
    intro m n
    simp [regFold_nil, lastUpd_nil, orElseOpt_none]
  | cons u rest ih =>
    intro m n
    rw [regFold_cons, lastUpd_cons, orElseOpt_assoc]
    cases u with
    | none => simp [ih, lastStep, orElseOpt_none]
    | some kv =>
      rw [ih]
      congr 1
      rw [lookupKey_mapSet]
      simp only [lastStep]
      by_cases hk : kv.1 = n <;> simp [hk, orElseOpt_none, orElseOpt_some]

theorem keysFold_nil (ks : List String) :
    keysFold ks ([] : List (Option (String × α))) = ks := rfl

theorem keysFold_cons (ks : List String) (u : Option (String × α))
    (upds : List (Option (String × α))) :
    keysFold ks (u :: upds)
      = keysFold (match u with | some kv => insertKey ks kv.1 | none => ks) upds := rfl

theorem keysOf_regFold (upds : List (Option (String × α))) :
    ∀ m : List (String × α), keysOf (regFold m upds) = keysFold (keysOf m) upds := by
  induction upds with
  | nil =>
    intro m
    rfl
  | cons u rest ih =>
    intro m
    rw [regFold_cons, keysFold_cons]
    cases u with
    | none => exact ih m
    | some kv => rw [ih, keysOf_mapSet]

theorem nodup_keysFold (upds : List (Option (String × α))) :
    ∀ ks : List String, ks.Nodup → (keysFold ks upds).Nodup := by
  induction upds with
  | nil =>
    intro ks h
    exact h
  | cons u rest ih =>
    intro ks h
    rw [keysFold_cons]
    cases u with
    | none => exact ih ks h
    | some kv => exact ih _ (nodup_insertKey h kv.1)

theorem mem_mapSet {m : List (String × α)} {k : String} {v : α} {p : String × α}
    (h : p ∈ mapSet m k v) : p ∈ m ∨ p = (k, v) := by
  induction m with
  | nil =>
    rw [mapSet_nil] at h
    right
    simpa using h
  | cons q rest ih =>
    obtain ⟨k₁, v₁⟩ := q
    by_cases hk : k₁ = k
    · subst hk
      rw [mapSet_cons, if_pos rfl] at h
      rcases List.mem_cons.1 h with h₁ | h₁
      · right
        exact h₁
      · left
        exact List.mem_cons_of_mem _ h₁
    · rw [mapSet_cons, if_neg hk] at h
      rcases List.mem_cons.1 h with h₁ | h₁
      · left
        exact h₁ ▸ List.mem_cons_self _ _
      · rcases ih h₁ with h₂ | h₂
        · exact Or.inl (List.mem_cons_of_mem _ h₂)
        · exact Or.inr h₂

theorem regFold_preserves (Q : String × α → Prop) (upds : List (Option (String × α))) :
    ∀ m : List (String × α), (∀ p ∈ m, Q p) →
      (∀ u ∈ upds, ∀ kv, u = some kv → Q kv) →
      ∀ p ∈ regFold m upds, Q p := by
  induction upds with
  | nil =>
    intro m hm _ p hp
    exact hm p hp
  | cons u rest ih =>
    intro m hm hu p hp
    rw [regFold_cons] at hp
    cases u with
    | none =>
      exact ih m hm (fun u₂ h₂ => hu u₂ (List.mem_cons_of_mem _ h₂)) p hp
    | some kv =>
      refine ih (mapSet m kv.1 kv.2) ?_ (fun u₂ h₂ => hu u₂ (List.mem_cons_of_mem _ h₂)) p hp
      intro q hq
      rcases mem_mapSet hq with h₂ | h₂
      · exact hm q h₂
      · subst h₂
        exact hu (some kv) (List.mem_cons_self _ _) kv rfl

-- Linking sequences of register calls to the generic folds.

theorem registeredTools_applyActions (acts : List RegisterAction) :
    ∀ st : ProxyState,
      (applyActions st acts).registeredTools
        = regFold st.registeredTools (acts.map toolUpd) := by
  induction acts with
  | nil =>
    intro st
    rfl
  | cons a rest ih =>
    intro st
    show (applyActions (applyAction st a) rest).registeredTools = _
    rw [ih, List.map_cons, regFold_cons]
    cases a <;> rfl

theorem registeredPrompts_applyActions (acts : List RegisterAction) :
    ∀ st : ProxyState,
      (applyActions st acts).registeredPrompts
        = regFold st.registeredPrompts (acts.map promptUpd) := by
  induction acts with
  | nil =>
    intro st
    rfl
  | cons a rest ih =>
    intro st
    show (applyActions (applyAction st a) rest).registeredPrompts = _
    rw [ih, List.map_cons, regFold_cons]
    cases a <;> rfl

theorem registeredResources_applyActions (acts : List RegisterAction) :
    ∀ st : ProxyState,
      (applyActions st acts).registeredResources
        = regFold st.registeredResources (acts.map resourceUpd) := by
  induction acts with
  | nil =>
    intro st
    rfl
  | cons a rest ih =>
    intro st
    show (applyActions (applyAction st a) rest).registeredResources = _
    rw [ih, List.map_cons, regFold_cons]
    cases a <;> rfl

-- Counting notifications per capability.

/-- Number of bindings of a key in an association list. -/
def countKey (m : List (String × α)) (n : String) : Nat :=
  m.countP (fun p => decide (p.1 = n))

theorem countKey_nil (n : String) : countKey ([] : List (String × α)) n = 0 := rfl

theorem countKey_cons (q : String × α) (m : List (String × α)) (n : String) :
    countKey (q :: m) n = countKey m n + if q.1 = n then 1 else 0 := by
  unfold countKey
  rw [List.countP_cons]
  by_cases h : q.1 = n <;> simp [h]

theorem countKey_eq_zero_of_not_mem {m : List (String × α)} {n : String}
    (h : n ∉ keysOf m) : countKey m n = 0 := by
  induction m with
  | nil => rfl
  | cons q rest ih =>
    rw [keysOf_cons, List.mem_cons] at h
    push_neg at h
    rw [countKey_cons, if_neg (fun hh => h.1 hh.symm), ih h.2]

theorem countKey_of_nodup {m : List (String × α)} (h : (keysOf m).Nodup) (n : String) :
    countKey m n = if n ∈ keysOf m then 1 else 0 := by
  induction m with
  | nil => simp [countKey_nil, keysOf_nil]
  | cons q rest ih =>
    rw [keysOf_cons, List.nodup_cons] at h
    rw [countKey_cons, keysOf_cons]
    by_cases hq : q.1 = n
    · rw [if_pos hq, countKey_eq_zero_of_not_mem (hq ▸ h.1),
        if_pos (List.mem_cons.2 (Or.inl hq.symm))]
    · have hne : ¬ n = q.1 := fun hh => hq hh.symm
      rw [if_neg hq, ih h.2]
      by_cases hmem : n ∈ keysOf rest
      · simp [hmem, List.mem_cons]
      · simp [hmem, List.mem_cons, hne]

/-- Whether a notification is the tool registration push for a given name. -/
def isToolRegFor (n : String) (e : NotificationEnvelope) : Bool :=
  decide (e.method = WS_METHOD_REGISTER_MCP_TOOL)
    && (match e.params with | .toolData t => decide (t.name = n) | _ => false)

/-- Whether a notification is the prompt registration push for a given name. -/
def isPromptRegFor (n : String) (e : NotificationEnvelope) : Bool :=
  decide (e.method = WS_METHOD_REGISTER_MCP_PROMPT)
    && (match e.params with | .promptData p => decide (p.name = n) | _ => false)

/-- Whether a notification is the resource registration push for a given name. -/
def isResourceRegFor (n : String) (e : NotificationEnvelope) : Bool :=
  decide (e.method = WS_METHOD_REGISTER_MCP_RESOURCE)
    && (match e.params with | .resourceData r => decide (r.name = n) | _ => false)

theorem countP_named (f : α → String) (n : String) :
    ∀ m : List (String × α), (∀ p ∈ m, f p.2 = p.1) →
      (m.countP fun p => decide (f p.2 = n)) = countKey m n := by
  intro m
  induction m with
  | nil =>
    intro _
    rfl
  | cons q rest ih =>
    intro h
    rw [List.countP_cons, countKey_cons,
      ih (fun p hp => h p (List.mem_cons_of_mem _ hp)), h q (List.mem_cons_self _ _)]
    by_cases hq : q.1 = n <;> simp [hq]

/-- Name coherence of the tool registry: every stored record carries the name
it is keyed under. -/
def ToolNamesOk (m : List (String × ToolRecord)) : Prop :=
  ∀ p ∈ m, p.2.data.name = p.1

/-- Name coherence of the prompt registry. -/
def PromptNamesOk (m : List (String × PromptRecord)) : Prop :=
  ∀ p ∈ m, p.2.data.name = p.1

/-- Name coherence of the resource registry. -/
def ResourceNamesOk (m : List (String × ResourceRecord)) : Prop :=
  ∀ p ∈ m, p.2.data.name = p.1

theorem countToolReg_refresh (st : ProxyState) (n : String)
    (htool : ToolNamesOk st.registeredTools) :
    (refreshAllRegistrations st).countP (isToolRegFor n)
      = countKey st.registeredTools n := by
  unfold refreshAllRegistrations
  rw [List.countP_append, List.countP_append, List.countP_map, List.countP_map,
    List.countP_map]
  have hprompt : (st.registeredPrompts.countP (isToolRegFor n ∘ fun p => sendPromptRegistration p.2)) = 0 := by
    apply List.countP_eq_zero.2
    intro p _
    simp [isToolRegFor, sendPromptRegistration, WS_METHOD_REGISTER_MCP_PROMPT,
      WS_METHOD_REGISTER_MCP_TOOL]
  have hres : (st.registeredResources.countP (isToolRegFor n ∘ fun p => sendResourceRegistration p.2)) = 0 := by
    apply List.countP_eq_zero.2
    intro p _
    simp [isToolRegFor, sendResourceRegistration, WS_METHOD_REGISTER_MCP_RESOURCE,
      WS_METHOD_REGISTER_MCP_TOOL]
  rw [hprompt, hres]
  have htools : (isToolRegFor n ∘ fun p : String × ToolRecord => sendToolRegistration p.2)
      = fun p : String × ToolRecord => decide (p.2.data.name = n) := by
    funext p
    simp [isToolRegFor, sendToolRegistration, WS_METHOD_REGISTER_MCP_TOOL]
  rw [htools, countP_named (fun r : ToolRecord => r.data.name) n st.registeredTools htool]
  omega

theorem countPromptReg_refresh (st : ProxyState) (n : String)
    (hprompt : PromptNamesOk st.registeredPrompts) :
    (refreshAllRegistrations st).countP (isPromptRegFor n)
      = countKey st.registeredPrompts n := by
  unfold refreshAllRegistrations
  rw [List.countP_append, List.countP_append, List.countP_map, List.countP_map,
    List.countP_map]
  have htool : (st.registeredTools.countP (isPromptRegFor n ∘ fun p => sendToolRegistration p.2)) = 0 := by
    apply List.countP_eq_zero.2
    intro p _
    simp [isPromptRegFor, sendToolRegistration, WS_METHOD_REGISTER_MCP_PROMPT,
      WS_METHOD_REGISTER_MCP_TOOL]
  have hres : (st.registeredResources.countP (isPromptRegFor n ∘ fun p => sendResourceRegistration p.2)) = 0 := by
    apply List.countP_eq_zero.2
    intro p _
    simp [isPromptRegFor, sendResourceRegistration, WS_METHOD_REGISTER_MCP_RESOURCE,
      WS_METHOD_REGISTER_MCP_PROMPT]
  rw [htool, hres]
  have hprompts : (isPromptRegFor n ∘ fun p : String × PromptRecord => sendPromptRegistration p.2)
      = fun p : String × PromptRecord => decide (p.2.data.name = n) := by
    funext p
    simp [isPromptRegFor, sendPromptRegistration, WS_METHOD_REGISTER_MCP_PROMPT]
  rw [hprompts, countP_named (fun r : PromptRecord => r.data.name) n st.registeredPrompts hprompt]
  omega

theorem countResourceReg_refresh (st : ProxyState) (n : String)
    (hres : ResourceNamesOk st.registeredResources) :
    (refreshAllRegistrations st).countP (isResourceRegFor n)
      = countKey st.registeredResources n := by
  unfold refreshAllRegistrations
  rw [List.countP_append, List.countP_append, List.countP_map, List.countP_map,
    List.countP_map]
  have htool : (st.registeredTools.countP (isResourceRegFor n ∘ fun p => sendToolRegistration p.2)) = 0 := by
    apply List.countP_eq_zero.2
    intro p _
    simp [isResourceRegFor, sendToolRegistration, WS_METHOD_REGISTER_MCP_RESOURCE,
      WS_METHOD_REGISTER_MCP_TOOL]
  have hprompt : (st.registeredPrompts.countP (isResourceRegFor n ∘ fun p => sendPromptRegistration p.2)) = 0 := by
    apply List.countP_eq_zero.2
    intro p _
    simp [isResourceRegFor, sendPromptRegistration, WS_METHOD_REGISTER_MCP_RESOURCE,
      WS_METHOD_REGISTER_MCP_PROMPT]
  rw [htool, hprompt]
  have hresources : (isResourceRegFor n ∘ fun p : String × ResourceRecord => sendResourceRegistration p.2)
      = fun p : String × ResourceRecord => decide (p.2.data.name = n) := by
    funext p
    simp [isResourceRegFor, sendResourceRegistration, WS_METHOD_REGISTER_MCP_RESOURCE]
  rw [hresources, countP_named (fun r : ResourceRecord => r.data.name) n st.registeredResources hres]
  omega

theorem orElseOpt_none_right (a : Option α) : orElseOpt a none = a := by
  cases a <;> rfl

theorem lookupKey_isSome_of_mem {m : List (String × α)} {n : String}
    (h : n ∈ keysOf m) : (lookupKey m n).isSome = true := by
  induction m with
  | nil => simp [keysOf_nil] at h
  | cons q rest ih =>
    obtain ⟨k₁, v₁⟩ := q
    by_cases hk : k₁ = n
    · rw [lookupKey_cons, if_pos hk]
      rfl
    · rw [keysOf_cons, List.mem_cons] at h
      rcases h with h | h
      · exact absurd h.symm hk
      · rw [lookupKey_cons, if_neg hk]
        exact ih h

theorem findResourceByUri_eq_find (rs : List (String × ResourceRecord)) (uri : String) :
    findResourceByUri rs uri
      = (rs.find? fun p => decide (p.2.data.uri = uri)).map Prod.snd := by
  induction rs with
  | nil => rfl
  | cons q rest ih =>
    obtain ⟨k₁, r₁⟩ := q
    show (if r₁.data.uri = uri then some r₁ else findResourceByUri rest uri) = _
    by_cases h : r₁.data.uri = uri
    · rw [if_pos h, List.find?_cons_of_pos _ (by simpa using h)]
      rfl
    · rw [if_neg h, List.find?_cons_of_neg _ (by simpa using h), ih]

theorem runCloses_aborted (interval : Nat) (cs : List Nat) :
    runCloses ConnState.aborted interval cs = [] := by
  induction cs with
  | nil => rfl
  | cons c rest ih =>
    have hstep : handleSocketClose ConnState.aborted interval c = (ConnState.aborted, []) := by
      simp [handleSocketClose]
    show (handleSocketClose ConnState.aborted interval c).2
        ++ runCloses (handleSocketClose ConnState.aborted interval c).1 interval rest = []
    rw [hstep]
    simpa using ih

/-- The proxy state reached from a fresh proxy by a sequence of register
calls. -/
def stateAfter (acts : List RegisterAction) : ProxyState :=
  applyActions initialProxyState acts

/-- The registration notifications replayed by the connected transition that
follows a sequence of register calls. -/
def replayAfter (acts : List RegisterAction) : List NotificationEnvelope :=
  (onConnectionChange (stateAfter acts) true).2

theorem replayAfter_eq_refresh (acts : List RegisterAction) :
    replayAfter acts = refreshAllRegistrations (stateAfter acts) := rfl

-- Claim theorems.

/-- C9: for every inbound envelope whose id is falsy (absent, null, 0, or the
empty string) or whose method is falsy, the proxy sends no response at all;
handleIncomingMessage reads but never writes the registries and the connected
flag, so registry and connection state are unchanged. In particular a
well-formed request with id 0 receives no response. -/
theorem claim_c9_falsy_id_or_method_no_response (st : ProxyState) (msg : InboundMessage)
    (h : jsTruthy msg.id = false ∨ jsTruthyStr msg.method = false) :
    handleIncomingMessage st msg = none := by
  obtain ⟨mid, mme, mpar⟩ := msg
  cases mid with
  | none => rfl
  | some idv =>
    cases mme with
    | none => rfl
    | some m =>
      rcases h with h | h
      · simp only [jsTruthy] at h
        simp [handleIncomingMessage, h]
      · simp only [jsTruthyStr, decide_eq_false_iff_not, ne_eq, not_not] at h
        subst h
        by_cases ht : idv.truthy <;> simp [handleIncomingMessage, ht]

/-- C9 witness: a request with id 0 naming a registered tool gets no
response. -/
theorem claim_c9_witness :
    jsTruthy (InboundMessage.id
        { id := some (Value.vNum 0), method := some WS_METHOD_MCP_TOOLS_CALL,
          params := { name := some "echo" } }) = false
      ∧ handleIncomingMessage
          (registerTool initialProxyState "echo" {} (fun v => Except.ok v)).1
          { id := some (Value.vNum 0), method := some WS_METHOD_MCP_TOOLS_CALL,
            params := { name := some "echo" } } = none :=
  ⟨rfl,
   claim_c9_falsy_id_or_method_no_response
     (registerTool initialProxyState "echo" {} (fun v => Except.ok v)).1
     { id := some (Value.vNum 0), method := some WS_METHOD_MCP_TOOLS_CALL,
       params := { name := some "echo" } }
     (Or.inl rfl)⟩

/-- C10: the constructor installs a no-op onServerAbort handler: for every
proxy state, reason and close code it returns the state unchanged and emits
nothing, so the abort reason and close code delivered by the transport are
discarded; every inspection accessor and the connected flag are unaffected,
and two aborts with different reasons and codes are indistinguishable, so the
proxy surface exposes nothing about a fatal abort. -/
theorem claim_c10_abort_handler_noop (st : ProxyState) (reason₁ reason₂ : String)
    (code₁ code₂ : Option Nat) :
    onServerAbortHandler st reason₁ code₁ = (st, [])
      ∧ (onServerAbortHandler st reason₁ code₁).1.isConnected = st.isConnected
      ∧ getRegisteredTools (onServerAbortHandler st reason₁ code₁).1 = getRegisteredTools st
      ∧ getRegisteredPrompts (onServerAbortHandler st reason₁ code₁).1 = getRegisteredPrompts st
      ∧ getRegisteredResources (onServerAbortHandler st reason₁ code₁).1
          = getRegisteredResources st
      ∧ onServerAbortHandler st reason₁ code₁ = onServerAbortHandler st reason₂ code₂ :=
  ⟨rfl, rfl, rfl, rfl, rfl, rfl⟩

/-- C3: on socket close the transport classifies the code: for a code in the
fatal set 1008, 4002, 4003, 4004 the whole subsequent trace consists of the
single onServerAbort firing carrying the message mapped to that code (for
4003, Multiple tunnel clients are not supported yet) and no reconnect is
ever scheduled afterwards, whatever closes follow; for every other code,
from any non-aborted state, exactly one reconnect attempt is scheduled after
the configured interval. -/
theorem claim_c3_close_code_classification (interval : Nat) (code : Nat) :
    (code ∈ NON_RECONNECTABLE_CLOSE_CODES →
      ∀ laterCloses : List Nat,
        runCloses ConnState.connected interval (code :: laterCloses)
          = [TransportEvent.serverAbortFired
              ((WSTunnelCloseMessage code).getD "Unknown error") code])
      ∧ (code ∉ NON_RECONNECTABLE_CLOSE_CODES →
        ∀ state : ConnState, state ≠ ConnState.aborted →
          handleSocketClose state interval code
            = (ConnState.reconnecting, [TransportEvent.reconnectScheduled interval]))
      ∧ WSTunnelCloseMessage 4003 = some "Multiple tunnel clients are not supported yet" := by
  refine ⟨?_, ?_, rfl⟩
  · intro hmem laterCloses
    have hstep : handleSocketClose ConnState.connected interval code
        = (ConnState.aborted,
           [TransportEvent.serverAbortFired
             ((WSTunnelCloseMessage code).getD "Unknown error") code]) := by
      simp [handleSocketClose, hmem]
    show (handleSocketClose ConnState.connected interval code).2
        ++ runCloses (handleSocketClose ConnState.connected interval code).1
            interval laterCloses = _
    rw [hstep, runCloses_aborted]
    simp
  · intro hmem state hstate
    simp [handleSocketClose, hstate, hmem]

/-- C3 witness: close 4003 from connected aborts with the mapped message and
stays silent over later closes; close 4000 schedules one reconnect after the
configured 100ms interval. -/
theorem claim_c3_witness :
    runCloses ConnState.connected 100 [4003, 4000, 1000]
        = [TransportEvent.serverAbortFired
            "Multiple tunnel clients are not supported yet" 4003]
      ∧ handleSocketClose ConnState.connected 100 4000
          = (ConnState.reconnecting, [TransportEvent.reconnectScheduled 100]) :=
  ⟨(claim_c3_close_code_classification 100 4003).1 (by decide) [4000, 1000],
   (claim_c3_close_code_classification 100 4000).2.1 (by decide)
     ConnState.connected (by decide)⟩

/-- C1 counterexample: a tools/call naming an unregistered tool is answered
with error code -32603 (the handler throw is converted by the catch around
the switch), not with -32601 as claimed; -32601 is reserved for unrecognized
methods. -/
theorem claim_c1_counterexample :
    (handleIncomingMessage initialProxyState
        { id := some (Value.vNum 1), method := some WS_METHOD_MCP_TOOLS_CALL,
          params := { name := some "missing" } }).map
        (fun r => (r.error.map RpcError.code, r.result))
      = some (some (-32603), none)
      ∧ (-32603 : Int) ≠ -32601 :=
  ⟨rfl, by decide⟩

/-- C1 amended: for every inbound tools/call whose name matches no registered
tool, the response envelope carries error code -32603 with the message Tool
not found plus the name, and no result field; likewise prompts/get against an
unregistered prompt name yields -32603 with Prompt not found; error code
-32601 with Method not found is produced for an unrecognized method, not for
a missing capability. -/
theorem claim_c1_amended_unknown_name (st : ProxyState) (idv : Value)
    (toolName promptName other : String) (args : Option Value)
    (hid : idv.truthy = true)
    (htool : lookupKey st.registeredTools toolName = none)
    (hprompt : lookupKey st.registeredPrompts promptName = none)
    (hother : other ≠ "" ∧ other ≠ WS_METHOD_MCP_TOOLS_CALL
      ∧ other ≠ WS_METHOD_MCP_PROMPTS_GET ∧ other ≠ WS_METHOD_MCP_RESOURCES_READ) :
    handleIncomingMessage st
        { id := some idv, method := some WS_METHOD_MCP_TOOLS_CALL,
          params := { name := some toolName, arguments := args } }
      = some { jsonrpc := JSON_RPC_VERSION, id := idv, result := none,
               error := some ⟨-32603, "Tool not found: " ++ toolName⟩ }
      ∧ handleIncomingMessage st
          { id := some idv, method := some WS_METHOD_MCP_PROMPTS_GET,
            params := { name := some promptName, arguments := args } }
        = some { jsonrpc := JSON_RPC_VERSION, id := idv, result := none,
                 error := some ⟨-32603, "Prompt not found: " ++ promptName⟩ }
      ∧ handleIncomingMessage st
          { id := some idv, method := some other, params := {} }
        = some { jsonrpc := JSON_RPC_VERSION, id := idv, result := none,
                 error := some ⟨-32601, "Method not found: " ++ other⟩ } := by
  obtain ⟨ho₁, ho₂, ho₃, ho₄⟩ := hother
  refine ⟨?_, ?_, ?_⟩
  · simp [handleIncomingMessage, hid, dispatchMethod, WS_METHOD_MCP_TOOLS_CALL,
      handleToolCall, htool, Thrown.toMessage, Except.mapError]
  · simp [handleIncomingMessage, hid, dispatchMethod, WS_METHOD_MCP_TOOLS_CALL,
      WS_METHOD_MCP_PROMPTS_GET, handlePromptGet, hprompt, Thrown.toMessage,
      Except.mapError]
  · simp [handleIncomingMessage, hid, dispatchMethod, ho₁, ho₂, ho₃, ho₄]

/-- C1 amended witness: on a fresh proxy, a tools/call for an absent name is
answered with -32603 and the Tool not found message. -/
theorem claim_c1_amended_witness :
    Value.truthy (Value.vStr "id1") = true
      ∧ handleIncomingMessage initialProxyState
          { id := some (Value.vStr "id1"), method := some WS_METHOD_MCP_TOOLS_CALL,
            params := { name := some "absent", arguments := none } }
        = some { jsonrpc := JSON_RPC_VERSION, id := Value.vStr "id1", result := none,
                 error := some ⟨-32603, "Tool not found: absent"⟩ } :=
  ⟨rfl,
   (claim_c1_amended_unknown_name initialProxyState (Value.vStr "id1") "absent"
     "absent2" "bogus" none rfl rfl rfl (by decide)).1⟩

/-- Demo proxy holding one registered tool, used as concrete input. -/
def c4DemoState : ProxyState :=
  (registerTool initialProxyState "ping" {} (fun _ => Except.ok (Value.vStr "pong"))).1

/-- C4 counterexample: an inbound envelope carrying id 0 and a valid method
naming a registered tool receives zero responses, not exactly one: the falsy
id is dropped before routing. -/
theorem claim_c4_counterexample :
    handleIncomingMessage c4DemoState
        { id := some (Value.vNum 0), method := some WS_METHOD_MCP_TOOLS_CALL,
          params := { name := some "ping" } } = none := rfl

/-- C4 amended: for every inbound envelope carrying a truthy id and a truthy
method, the proxy produces exactly one response envelope tagged with the
original id and containing an error field or a result field but not both
(envelopes whose id or method is falsy receive no response, per the
preceding routing guard). -/
theorem claim_c4_amended_one_response (st : ProxyState) (idv : Value) (m : String)
    (params : InboundParams) (hid : idv.truthy = true) (hm : m ≠ "") :
    ∃ r : ResponseEnvelope,
      handleIncomingMessage st { id := some idv, method := some m, params := params }
          = some r
        ∧ r.id = idv ∧ r.jsonrpc = JSON_RPC_VERSION
        ∧ ((r.error.isSome = true ∧ r.result = none)
            ∨ (r.result.isSome = true ∧ r.error = none)) := by
  cases hdisp : dispatchMethod st m params with
  | ok v =>
    refine ⟨{ jsonrpc := JSON_RPC_VERSION, id := idv, result := some v }, ?_, rfl, rfl,
      Or.inr ⟨rfl, rfl⟩⟩
    simp [handleIncomingMessage, hid, hm, hdisp]
  | error e =>
    refine ⟨{ jsonrpc := JSON_RPC_VERSION, id := idv, error := some e }, ?_, rfl, rfl,
      Or.inl ⟨rfl, rfl⟩⟩
    simp [handleIncomingMessage, hid, hm, hdisp]

/-- C4 amended witness: a truthy-id request with an unknown method gets
exactly one response with an error field. -/
theorem claim_c4_amended_witness :
    Value.truthy (Value.vNum 5) = true
      ∧ ∃ r : ResponseEnvelope,
        handleIncomingMessage initialProxyState
            { id := some (Value.vNum 5), method := some "no_such_method", params := {} }
            = some r
          ∧ r.id = Value.vNum 5 ∧ r.jsonrpc = JSON_RPC_VERSION
          ∧ ((r.error.isSome = true ∧ r.result = none)
              ∨ (r.result.isSome = true ∧ r.error = none)) :=
  ⟨rfl,
   claim_c4_amended_one_response initialProxyState (Value.vNum 5) "no_such_method" {}
     rfl (by decide)⟩

/-- C5: a registered callback that throws an Error is caught: the response
for that request carries error code -32603 with the thrown message and no
result, and the same proxy state still routes and answers a subsequent
request whose callback succeeds (handleIncomingMessage never mutates the
registries, so routing is unaffected). -/
theorem claim_c5_callback_throw_caught (st : ProxyState) (idv idv₂ : Value)
    (name name₂ : String) (argVal argVal₂ : Value) (t t₂ : ToolRecord)
    (failMsg : String) (v₂ : Value)
    (hid : idv.truthy = true) (hid₂ : idv₂.truthy = true)
    (hname : lookupKey st.registeredTools name = some t)
    (hthrow : t.callback argVal = Except.error (Thrown.errObj failMsg))
    (hname₂ : lookupKey st.registeredTools name₂ = some t₂)
    (hok : t₂.callback argVal₂ = Except.ok v₂) :
    handleIncomingMessage st
        { id := some idv, method := some WS_METHOD_MCP_TOOLS_CALL,
          params := { name := some name, arguments := some argVal } }
      = some { jsonrpc := JSON_RPC_VERSION, id := idv, result := none,
               error := some ⟨-32603, failMsg⟩ }
      ∧ handleIncomingMessage st
          { id := some idv₂, method := some WS_METHOD_MCP_TOOLS_CALL,
            params := { name := some name₂, arguments := some argVal₂ } }
        = some { jsonrpc := JSON_RPC_VERSION, id := idv₂, result := some v₂,
                 error := none } := by
  constructor
  · simp [handleIncomingMessage, hid, dispatchMethod, WS_METHOD_MCP_TOOLS_CALL,
      handleToolCall, hname, hthrow, Thrown.toMessage, Except.mapError]
  · simp [handleIncomingMessage, hid₂, dispatchMethod, WS_METHOD_MCP_TOOLS_CALL,
      handleToolCall, hname₂, hok, Except.mapError]

/-- Demo proxy holding a throwing tool and a succeeding tool. -/
def c5DemoState : ProxyState :=
  (registerTool
    (registerTool initialProxyState "boom" {}
      (fun _ => Except.error (Thrown.errObj "kaboom"))).1
    "fine" {} (fun _ => Except.ok (Value.vStr "done"))).1

/-- C5 witness: the throwing tool answers -32603 kaboom; a following call to
the succeeding tool on the same state is answered normally. -/
theorem claim_c5_witness :
    handleIncomingMessage c5DemoState
        { id := some (Value.vNum 1), method := some WS_METHOD_MCP_TOOLS_CALL,
          params := { name := some "boom", arguments := some Value.vNull } }
      = some { jsonrpc := JSON_RPC_VERSION, id := Value.vNum 1, result := none,
               error := some ⟨-32603, "kaboom"⟩ }
      ∧ handleIncomingMessage c5DemoState
          { id := some (Value.vNum 2), method := some WS_METHOD_MCP_TOOLS_CALL,
            params := { name := some "fine", arguments := some Value.vNull } }
        = some { jsonrpc := JSON_RPC_VERSION, id := Value.vNum 2,
                 result := some (Value.vStr "done"), error := none } :=
  claim_c5_callback_throw_caught c5DemoState (Value.vNum 1) (Value.vNum 2) "boom" "fine"
    Value.vNull Value.vNull
    ⟨serializeTool "boom" {}, fun _ => Except.error (Thrown.errObj "kaboom")⟩
    ⟨serializeTool "fine" {}, fun _ => Except.ok (Value.vStr "done")⟩
    "kaboom" (Value.vStr "done") rfl rfl rfl rfl rfl rfl

/-- Demo proxy holding two resources registered under different names that
share one uri. -/
def c6DemoState : ProxyState :=
  (registerResource
    (registerResource initialProxyState "alpha" (UriOrTemplate.uriStr "file:///shared") {}
      (fun _ => Except.ok (Value.vStr "from-alpha"))).1
    "beta" (UriOrTemplate.uriStr "file:///shared") {}
    (fun _ => Except.ok (Value.vStr "from-beta"))).1

/-- C6 counterexample: two resource records with the same uri coexist when
registered under distinct names, so uri is not the registry identity; a
resources/read for that uri invokes the earliest matching callback, not the
callback of the latest registration for that uri. -/
theorem claim_c6_counterexample :
    c6DemoState.registeredResources.countP
        (fun p => decide (p.2.data.uri = "file:///shared")) = 2
      ∧ handleResourceRead c6DemoState { uri := some "file:///shared" }
          = Except.ok (Value.vStr "from-alpha")
      ∧ Value.vStr "from-alpha" ≠ Value.vStr "from-beta" :=
  ⟨rfl, rfl, by simp⟩

/-- C6 amended: resource capability identity is the registration name: at any
instant at most one record exists per name, re-registering under the same
name replaces the record wholesale with the latest definition, and
resources/read scans the records in insertion order and invokes the callback
of the first record whose uri matches the request. -/
theorem claim_c6_amended_resource_identity (acts : List RegisterAction) (n : String) :
    countKey (stateAfter acts).registeredResources n ≤ 1
      ∧ lookupKey (stateAfter acts).registeredResources n
          = lastUpd (acts.map resourceUpd) n
      ∧ (∀ uri : String,
          handleResourceRead (stateAfter acts) { uri := some uri }
            = (match findResourceByUri (stateAfter acts).registeredResources uri with
               | some r => r.callback uri
               | none => Except.error (Thrown.errObj ("Resource not found: " ++ uri))))
      ∧ ∀ uri : String,
          findResourceByUri (stateAfter acts).registeredResources uri
            = ((stateAfter acts).registeredResources.find?
                (fun p => decide (p.2.data.uri = uri))).map Prod.snd := by
  have hreg : (stateAfter acts).registeredResources
      = regFold initialProxyState.registeredResources (acts.map resourceUpd) :=
    registeredResources_applyActions acts initialProxyState
  have hnodup : (keysOf (stateAfter acts).registeredResources).Nodup := by
    rw [hreg, keysOf_regFold]
    exact nodup_keysFold _ [] List.nodup_nil
  refine ⟨?_, ?_, ?_, fun uri => findResourceByUri_eq_find _ uri⟩
  · rw [countKey_of_nodup hnodup]
    by_cases hmem : n ∈ keysOf (stateAfter acts).registeredResources <;> simp [hmem]
  · rw [hreg, lookupKey_regFold]
    show orElseOpt _ (lookupKey [] n) = _
    rw [lookupKey_nil, orElseOpt_none_right]
  · intro uri
    cases hfind : findResourceByUri (stateAfter acts).registeredResources uri with
    | none => simp [handleResourceRead, hfind]
    | some r => simp [handleResourceRead, hfind]

/-- C7: every register call stores the capability record in its registry
regardless of connection state (the other registries and the connected flag
are untouched), sends the registration notification precisely when the proxy
is currently connected and no notification otherwise, and the stored record
is part of the replay performed on the next connected transition, so a push
skipped while disconnected is deferred to the next successful connection. -/
theorem claim_c7_register_store_and_push (st : ProxyState)
    (tn : String) (tc : ToolConfig) (tcb : InvokeCallback)
    (pn : String) (pc : PromptConfig) (pcb : InvokeCallback)
    (rn : String) (ru : UriOrTemplate) (rc : ResourceConfig) (rcb : ReadCallback) :
    (lookupKey (registerTool st tn tc tcb).1.registeredTools tn
        = some ⟨serializeTool tn tc, tcb⟩)
      ∧ (registerTool st tn tc tcb).1.isConnected = st.isConnected
      ∧ (registerTool st tn tc tcb).2
          = (if st.isConnected then some (sendToolRegistration ⟨serializeTool tn tc, tcb⟩)
             else none)
      ∧ sendToolRegistration ⟨serializeTool tn tc, tcb⟩
          ∈ (onConnectionChange (registerTool st tn tc tcb).1 true).2
      ∧ (lookupKey (registerPrompt st pn pc pcb).1.registeredPrompts pn
          = some ⟨serializePrompt pn pc, pcb⟩)
      ∧ (registerPrompt st pn pc pcb).1.isConnected = st.isConnected
      ∧ (registerPrompt st pn pc pcb).2
          = (if st.isConnected then some (sendPromptRegistration ⟨serializePrompt pn pc, pcb⟩)
             else none)
      ∧ sendPromptRegistration ⟨serializePrompt pn pc, pcb⟩
          ∈ (onConnectionChange (registerPrompt st pn pc pcb).1 true).2
      ∧ (lookupKey (registerResource st rn ru rc rcb).1.registeredResources rn
          = some ⟨serializeResource rn ru rc, rcb⟩)
      ∧ (registerResource st rn ru rc rcb).1.isConnected = st.isConnected
      ∧ (registerResource st rn ru rc rcb).2
          = (if st.isConnected then
              some (sendResourceRegistration ⟨serializeResource rn ru rc, rcb⟩)
             else none)
      ∧ sendResourceRegistration ⟨serializeResource rn ru rc, rcb⟩
          ∈ (onConnectionChange (registerResource st rn ru rc rcb).1 true).2 := by
  have hT : lookupKey (registerTool st tn tc tcb).1.registeredTools tn
      = some ⟨serializeTool tn tc, tcb⟩ := by
    show lookupKey (mapSet st.registeredTools tn _) tn = _
    rw [lookupKey_mapSet, if_pos rfl]
  have hP : lookupKey (registerPrompt st pn pc pcb).1.registeredPrompts pn
      = some ⟨serializePrompt pn pc, pcb⟩ := by
    show lookupKey (mapSet st.registeredPrompts pn _) pn = _
    rw [lookupKey_mapSet, if_pos rfl]
  have hR : lookupKey (registerResource st rn ru rc rcb).1.registeredResources rn
      = some ⟨serializeResource rn ru rc, rcb⟩ := by
    show lookupKey (mapSet st.registeredResources rn _) rn = _
    rw [lookupKey_mapSet, if_pos rfl]
  refine ⟨hT, rfl, rfl, ?_, hP, rfl, rfl, ?_, hR, rfl, rfl, ?_⟩
  · show _ ∈ refreshAllRegistrations _
    unfold refreshAllRegistrations
    exact List.mem_append_left _ (List.mem_append_left _
      (List.mem_map.2 ⟨_, mem_of_lookupKey hT, rfl⟩))
  · show _ ∈ refreshAllRegistrations _
    unfold refreshAllRegistrations
    exact List.mem_append_left _ (List.mem_append_right _
      (List.mem_map.2 ⟨_, mem_of_lookupKey hP, rfl⟩))
  · show _ ∈ refreshAllRegistrations _
    unfold refreshAllRegistrations
    exact List.mem_append_right _
      (List.mem_map.2 ⟨_, mem_of_lookupKey hR, rfl⟩)

/-- C8 counterexample: with both sub-starts failing with distinct reasons,
the composite start rejects with the first failure alone; the second reason
is dropped, so no aggregate of both failures is produced. -/
theorem claim_c8_counterexample :
    compositeStart (Except.error "stdio start failed") (Except.error "tunnel start failed")
        = Except.error "stdio start failed"
      ∧ "stdio start failed" ≠ "tunnel start failed" :=
  ⟨rfl, by decide⟩

/-- C8 amended: every register call on the composite dispatcher forwards the
same name, config and callback, within the same call, to both the stdio host
and the tunnel proxy; the dispatcher holds no capability state of its own
beyond the two sub-proxies it owns; start succeeds exactly when both
sub-starts succeed and fails if either fails, rejecting with a single
failure (the first) rather than an aggregate of both. -/
theorem claim_c8_amended_composite_forwarding (cs : CompositeState)
    (tn : String) (tc : ToolConfig) (tcb : InvokeCallback)
    (pn : String) (pc : PromptConfig) (pcb : InvokeCallback)
    (rn : String) (ru : UriOrTemplate) (rc : ResourceConfig) (rcb : ReadCallback)
    (a b : Except String Unit) :
    ((compositeRegisterTool cs tn tc tcb).1.stdioProxy.serverCalls
        = cs.stdioProxy.serverCalls ++ [StdioRegistration.toolReg tn tc tcb])
      ∧ lookupKey (compositeRegisterTool cs tn tc tcb).1.tunnelProxy.registeredTools tn
          = some ⟨serializeTool tn tc, tcb⟩
      ∧ ((compositeRegisterPrompt cs pn pc pcb).1.stdioProxy.serverCalls
          = cs.stdioProxy.serverCalls ++ [StdioRegistration.promptReg pn pc pcb])
      ∧ lookupKey (compositeRegisterPrompt cs pn pc pcb).1.tunnelProxy.registeredPrompts pn
          = some ⟨serializePrompt pn pc, pcb⟩
      ∧ ((compositeRegisterResource cs rn ru rc rcb).1.stdioProxy.serverCalls
          = cs.stdioProxy.serverCalls ++ [StdioRegistration.resourceReg rn ru rc rcb])
      ∧ lookupKey
            (compositeRegisterResource cs rn ru rc rcb).1.tunnelProxy.registeredResources rn
          = some ⟨serializeResource rn ru rc, rcb⟩
      ∧ (compositeStart a b = Except.ok ((), ())
          ↔ a = Except.ok () ∧ b = Except.ok ())
      ∧ ∀ e : String, a = Except.error e → compositeStart a b = Except.error e := by
  refine ⟨rfl, ?_, rfl, ?_, rfl, ?_, ?_, ?_⟩
  · show lookupKey (mapSet cs.tunnelProxy.registeredTools tn _) tn = _
    rw [lookupKey_mapSet, if_pos rfl]
  · show lookupKey (mapSet cs.tunnelProxy.registeredPrompts pn _) pn = _
    rw [lookupKey_mapSet, if_pos rfl]
  · show lookupKey (mapSet cs.tunnelProxy.registeredResources rn _) rn = _
    rw [lookupKey_mapSet, if_pos rfl]
  · cases a <;> cases b <;> simp [compositeStart, promiseAll2]
  · intro e he
    subst he
    rfl

/-- C8 amended witness: on a fresh composite state a register call reaches
both sides, and start with two successful sub-starts succeeds. -/
theorem claim_c8_amended_witness :
    ((compositeRegisterTool ⟨{}, {}⟩ "t" {} (fun v => Except.ok v)).1.stdioProxy.serverCalls
        = [StdioRegistration.toolReg "t" {} (fun v => Except.ok v)])
      ∧ compositeStart (Except.ok ()) (Except.ok ()) = Except.ok ((), ()) :=
  ⟨by
    have h := claim_c8_amended_composite_forwarding ⟨{}, {}⟩ "t" {} (fun v => Except.ok v)
      "p" {} (fun v => Except.ok v) "r" (UriOrTemplate.uriStr "u") {}
      (fun s => Except.ok (Value.vStr s)) (Except.ok ()) (Except.ok ())
    simpa using h.1,
   by
    have h := claim_c8_amended_composite_forwarding ⟨{}, {}⟩ "t" {} (fun v => Except.ok v)
      "p" {} (fun v => Except.ok v) "r" (UriOrTemplate.uriStr "u") {}
      (fun s => Except.ok (Value.vStr s)) (Except.ok ()) (Except.ok ())
    exact h.2.2.2.2.2.2.1.2 ⟨rfl, rfl⟩⟩

/-- C2: after any sequence of register calls followed by the transition to
connected, the replay sends the notifications for the three kinds in the
fixed order tools, then prompts, then resources, lists records within a kind
in first-registration order, sends exactly one registration notification per
currently-registered capability and none for an unregistered one (so
registering the same identity twice before connecting yields exactly one
replayed notification, not two), and the record replayed for an identity is
the latest definition registered under it. -/
theorem claim_c2_replay_exactly_once (acts : List RegisterAction) (n : String) :
    replayAfter acts
        = (stateAfter acts).registeredTools.map (fun p => sendToolRegistration p.2)
          ++ (stateAfter acts).registeredPrompts.map (fun p => sendPromptRegistration p.2)
          ++ (stateAfter acts).registeredResources.map (fun p => sendResourceRegistration p.2)
      ∧ (replayAfter acts).countP (isToolRegFor n)
          = (if (lastUpd (acts.map toolUpd) n).isSome then 1 else 0)
      ∧ (replayAfter acts).countP (isPromptRegFor n)
          = (if (lastUpd (acts.map promptUpd) n).isSome then 1 else 0)
      ∧ (replayAfter acts).countP (isResourceRegFor n)
          = (if (lastUpd (acts.map resourceUpd) n).isSome then 1 else 0)
      ∧ lookupKey (stateAfter acts).registeredTools n = lastUpd (acts.map toolUpd) n
      ∧ lookupKey (stateAfter acts).registeredPrompts n = lastUpd (acts.map promptUpd) n
      ∧ lookupKey (stateAfter acts).registeredResources n = lastUpd (acts.map resourceUpd) n
      ∧ keysOf (stateAfter acts).registeredTools = keysFold [] (acts.map toolUpd)
      ∧ keysOf (stateAfter acts).registeredPrompts = keysFold [] (acts.map promptUpd)
      ∧ keysOf (stateAfter acts).registeredResources = keysFold [] (acts.map resourceUpd) := by
  have hregT : (stateAfter acts).registeredTools
      = regFold initialProxyState.registeredTools (acts.map toolUpd) :=
    registeredTools_applyActions acts initialProxyState
  have hregP : (stateAfter acts).registeredPrompts
      = regFold initialProxyState.registeredPrompts (acts.map promptUpd) :=
    registeredPrompts_applyActions acts initialProxyState
  have hregR : (stateAfter acts).registeredResources
      = regFold initialProxyState.registeredResources (acts.map resourceUpd) :=
    registeredResources_applyActions acts initialProxyState
  have hlookT : lookupKey (stateAfter acts).registeredTools n
      = lastUpd (acts.map toolUpd) n := by
    rw [show (stateAfter acts).registeredTools = _ from hregT, lookupKey_regFold]
    show orElseOpt _ (lookupKey [] n) = _
    rw [lookupKey_nil, orElseOpt_none_right]
  have hlookP : lookupKey (stateAfter acts).registeredPrompts n
      = lastUpd (acts.map promptUpd) n := by
    rw [show (stateAfter acts).registeredPrompts = _ from hregP, lookupKey_regFold]
    show orElseOpt _ (lookupKey [] n) = _
    rw [lookupKey_nil, orElseOpt_none_right]
  have hlookR : lookupKey (stateAfter acts).registeredResources n
      = lastUpd (acts.map resourceUpd) n := by
    rw [show (stateAfter acts).registeredResources = _ from hregR, lookupKey_regFold]
    show orElseOpt _ (lookupKey [] n) = _
    rw [lookupKey_nil, orElseOpt_none_right]
  have hkeysT : keysOf (stateAfter acts).registeredTools
      = keysFold [] (acts.map toolUpd) := by
    rw [hregT, keysOf_regFold]
    rfl
  have hkeysP : keysOf (stateAfter acts).registeredPrompts
      = keysFold [] (acts.map promptUpd) := by
    rw [hregP, keysOf_regFold]
    rfl
  have hkeysR : keysOf (stateAfter acts).registeredResources
      = keysFold [] (acts.map resourceUpd) := by
    rw [hregR, keysOf_regFold]
    rfl
  have hnodupT : (keysOf (stateAfter acts).registeredTools).Nodup := by
    rw [hkeysT]
    exact nodup_keysFold _ [] List.nodup_nil
  have hnodupP : (keysOf (stateAfter acts).registeredPrompts).Nodup := by
    rw [hkeysP]
    exact nodup_keysFold _ [] List.nodup_nil
  have hnodupR : (keysOf (stateAfter acts).registeredResources).Nodup := by
    rw [hkeysR]
    exact nodup_keysFold _ [] List.nodup_nil
  have hinvT : ToolNamesOk (stateAfter acts).registeredTools := by
    rw [hregT]
    refine regFold_preserves _ _ initialProxyState.registeredTools ?_ ?_
    · intro p hp
      simp [initialProxyState] at hp
    · intro u hu kv hkv
      obtain ⟨a, _, rfl⟩ := List.mem_map.1 hu
      cases a with
      | toolAct nm c cb =>
        obtain rfl := Option.some.inj hkv
        rfl
      | promptAct nm c cb => simp [toolUpd] at hkv
      | resourceAct nm u2 c cb => simp [toolUpd] at hkv
  have hinvP : PromptNamesOk (stateAfter acts).registeredPrompts := by
    rw [hregP]
    refine regFold_preserves _ _ initialProxyState.registeredPrompts ?_ ?_
    · intro p hp
      simp [initialProxyState] at hp
    · intro u hu kv hkv
      obtain ⟨a, _, rfl⟩ := List.mem_map.1 hu
      cases a with
      | promptAct nm c cb =>
        obtain rfl := Option.some.inj hkv
        rfl
      | toolAct nm c cb => simp [promptUpd] at hkv
      | resourceAct nm u2 c cb => simp [promptUpd] at hkv
  have hinvR : ResourceNamesOk (stateAfter acts).registeredResources := by
    rw [hregR]
    refine regFold_preserves _ _ initialProxyState.registeredResources ?_ ?_
    · intro p hp
      simp [initialProxyState] at hp
    · intro u hu kv hkv
      obtain ⟨a, _, rfl⟩ := List.mem_map.1 hu
      cases a with
      | resourceAct nm u2 c cb =>
        obtain rfl := Option.some.inj hkv
        rfl
      | toolAct nm c cb => simp [resourceUpd] at hkv
      | promptAct nm c cb => simp [resourceUpd] at hkv
  have hiffT : n ∈ keysOf (stateAfter acts).registeredTools
      ↔ (lastUpd (acts.map toolUpd) n).isSome = true := by
    constructor
    · intro hmem
      have hs := lookupKey_isSome_of_mem hmem
      rwa [hlookT] at hs
    · intro hsome
      obtain ⟨r, hr⟩ := Option.isSome_iff_exists.1 hsome
      exact mem_keysOf_of_lookupKey (hlookT ▸ hr)
  have hiffP : n ∈ keysOf (stateAfter acts).registeredPrompts
      ↔ (lastUpd (acts.map promptUpd) n).isSome = true := by
    constructor
    · intro hmem
      have hs := lookupKey_isSome_of_mem hmem
      rwa [hlookP] at hs
    · intro hsome
      obtain ⟨r, hr⟩ := Option.isSome_iff_exists.1 hsome
      exact mem_keysOf_of_lookupKey (hlookP ▸ hr)
  have hiffR : n ∈ keysOf (stateAfter acts).registeredResources
      ↔ (lastUpd (acts.map resourceUpd) n).isSome = true := by
    constructor
    · intro hmem
      have hs := lookupKey_isSome_of_mem hmem
      rwa [hlookR] at hs
    · intro hsome
      obtain ⟨r, hr⟩ := Option.isSome_iff_exists.1 hsome
      exact mem_keysOf_of_lookupKey (hlookR ▸ hr)
  refine ⟨rfl, ?_, ?_, ?_, hlookT, hlookP, hlookR, hkeysT, hkeysP, hkeysR⟩
  · rw [replayAfter_eq_refresh, countToolReg_refresh _ _ hinvT,
      countKey_of_nodup hnodupT, if_congr hiffT rfl rfl]
  · rw [replayAfter_eq_refresh, countPromptReg_refresh _ _ hinvP,
      countKey_of_nodup hnodupP, if_congr hiffP rfl rfl]
  · rw [replayAfter_eq_refresh, countResourceReg_refresh _ _ hinvR,
      countKey_of_nodup hnodupR, if_congr hiffR rfl rfl]

end McpTunnel
